import Mathlib

/-!
Verification of the CalQ calorie-tracker core against its source.

The embedding follows the Python sources:
  * `calculator.py` — pure serving-size and aggregation functions;
  * `models.py`     — the `UserLog` record;
  * `ui.py`         — the `DatabaseManager` persistence layer over SQLite.

Modelling conventions:
  * Python floats (calorie and serving values) are modelled as `ℚ`; the
    claims are about exact arithmetic identities, which `ℚ` captures.
  * Calendar dates (ISO `YYYY-MM-DD` strings in the code) are modelled as
    day numbers `Int`; `timedelta(days=i)` becomes integer subtraction,
    and equality of valid date strings coincides with equality of day
    numbers. Timestamps (`datetime.now().isoformat()` strings, compared
    lexicographically by SQLite, i.e. chronologically) are modelled as `Nat`.
  * A `DatabaseManager` whose `sqlite3.connect` call failed holds
    `self.connection = None`; that state is `none : Option Store`.
    Calling `.cursor()` on it raises `AttributeError`, which the methods'
    `except sqlite3.Error` handlers do not catch, so it escapes to the
    caller: modelled as `Except.error PyErr.attributeError`.
  * An `sqlite3.Error` raised while querying (in this model: the queried
    table does not exist) is caught inside each method and turned into the
    method's fallback return value, exactly as in the code.
-/

namespace CalQ

/-- Errors escaping a `DatabaseManager` method or a calculator call.
`attributeError` is Python's `AttributeError` (e.g. `.cursor()` on `None`);
`storageError` stands for an uncaught `sqlite3.Error`. -/
inductive PyErr where
  | attributeError
  | storageError
  deriving DecidableEq, Repr

/-- Errors raised by `calculate_calories_for_serving` in `calculator.py`:
`ValueError` for non-numeric input, `ZeroDivisionError` for a zero
standard serving size. -/
inductive CalcErr where
  | valueError
  | zeroDivisionError
  deriving DecidableEq, Repr

/-- A Python value passed to the calculator: a number, a string, or `None`. -/
inductive PyVal where
  | num (q : ℚ)
  | str (s : String)
  | noneV
  deriving DecidableEq, Repr

/-- Digit characters to the natural number they spell (most significant first). -/
def digitsVal (ds : List Char) : Nat :=
  ds.foldl (fun a c => a * 10 + (c.toNat - 48)) 0

/-- Models the Python builtin `float(str)` on decimal literals: optional
sign, then digits with an optional single decimal point, at least one
digit overall. (`float()` additionally accepts exponents, `inf`/`nan`,
underscores and surrounding whitespace; no claim exercises those forms.)
Returns `none` where `float()` raises `ValueError`. -/
def strToNum? (s : String) : Option ℚ :=
  let cs := s.toList
  let sign : ℚ := match cs with
    | '-' :: _ => -1
    | _ => 1
  let rest : List Char := match cs with
    | '-' :: t => t
    | '+' :: t => t
    | t => t
  let intPart := rest.takeWhile Char.isDigit
  let after := rest.dropWhile Char.isDigit
  match after with
  | [] =>
      if intPart.isEmpty then none else some (sign * digitsVal intPart)
  | '.' :: frac =>
      if frac.all Char.isDigit && !(intPart.isEmpty && frac.isEmpty) then
        some (sign * ((digitsVal intPart : ℚ) +
          (digitsVal frac : ℚ) / (10 ^ frac.length)))
      else none
  | _ => none

/-- Models the coercion `float(x)` applied to an argument of
`calculate_calories_for_serving`: numbers pass through, strings are
parsed, `None` raises `TypeError` (caught together with `ValueError`
by the code). `none` means the coercion raises. -/
def pyFloat (v : PyVal) : Option ℚ :=
  match v with
  | .num q => some q
  | .str s => strToNum? s
  | .noneV => none

/-- Embeds `calculator.calculate_calories_for_serving`: convert the three
arguments with `float` (any failure raises `ValueError`), then guard
`std_size == 0` with `ZeroDivisionError`, then return
`(cal / std_size) * user_size`. -/
def calculate_calories_for_serving (calories_per_serving standard_serving_size
    user_serving_size : PyVal) : Except CalcErr ℚ :=
  match pyFloat calories_per_serving, pyFloat standard_serving_size,
      pyFloat user_serving_size with
  | some cal, some std_size, some user_size =>
      if std_size = 0 then
        .error .zeroDivisionError
      else
        .ok (cal / std_size * user_size)
  | _, _, _ => .error .valueError

/-- Embeds `models.UserLog` (the dataclass); `timestamp : Nat` stands for
the `datetime` creation instant. -/
structure UserLog where
  id : Option Int
  date : String
  meal_type : String
  food_name : String
  calories : ℚ
  serving_size : String
  notes : Option String
  timestamp : Nat
  deriving DecidableEq, Repr

/-- Embeds `calculator.total_daily_calories`: sum of the `calories` field. -/
def total_daily_calories (logs : List UserLog) : ℚ :=
  (logs.map (fun log => log.calories)).sum

/-- Models Python `str.lower`: lowercase character by character. This is
`String.toLower` (`String.map Char.toLower`) re-expressed on the
underlying character list so that it reduces in the kernel; both
lowercase exactly the ASCII letters the meal-type vocabulary uses. -/
def strLower (s : String) : String :=
  ⟨s.data.map Char.toLower⟩

/-- Embeds `calculator.filter_logs_by_meal_type`: keep the logs whose
`meal_type`, lowercased, equals the lowercased query. -/
def filter_logs_by_meal_type (logs : List UserLog) (meal_type : String) :
    List UserLog :=
  let meal_type_lower := strLower meal_type
  logs.filter (fun log => strLower log.meal_type == meal_type_lower)

/-! ## Persistence layer (`ui.DatabaseManager`) -/

/-- Calendar dates, `YYYY-MM-DD` strings in the code, as day numbers. -/
abbrev Date := Int

/-- A row of the `meals` table (`id INTEGER PRIMARY KEY AUTOINCREMENT,
date, meal_type, food_name, calories, serving_size, notes, timestamp`). -/
structure MealRow where
  id : Nat
  date : Date
  meal_type : String
  food_name : String
  calories : ℚ
  serving_size : String
  notes : String
  timestamp : Nat
  deriving DecidableEq, Repr

/-- A row of the `users` table (`id INTEGER PRIMARY KEY, name,
target_calories INTEGER DEFAULT 2000`). -/
structure UserRow where
  id : Nat
  name : String
  target_calories : Int
  deriving DecidableEq, Repr

/-- The backing SQLite file. A table is `none` while it does not exist
(querying it then raises `sqlite3.OperationalError`, an `sqlite3.Error`).
`nextMealId` models the `AUTOINCREMENT` counter of `meals`, which never
reuses an id after deletion. -/
structure Store where
  meals : Option (List MealRow)
  users : Option (List UserRow)
  nextMealId : Nat
  deriving DecidableEq, Repr

/-- A never-written SQLite file: no tables, autoincrement at 1. -/
def Store.fresh : Store := ⟨none, none, 1⟩

/-- The `connection` attribute of a `DatabaseManager`: `none` when
`sqlite3.connect` failed (the attribute stayed `None`), otherwise an open
connection onto the store. -/
abbrev Conn := Option Store

/-- Insertion sort step for `ORDER BY`: put `a` before the first element
it compares `le` to. -/
def insertLe (le : α → α → Bool) (a : α) : List α → List α
  | [] => [a]
  | b :: bs => if le a b then a :: b :: bs else b :: insertLe le a bs

/-- Models an SQL `ORDER BY` with comparison `le` (stable insertion sort). -/
def sortByLe (le : α → α → Bool) (l : List α) : List α :=
  l.foldr (insertLe le) []

/-- Embeds `DatabaseManager.initialize_database` as its effect on the
backing store: `CREATE TABLE IF NOT EXISTS` for `meals` and `users`, then
`INSERT` the default user (`'User'`, 2000) only if `SELECT COUNT(*) FROM
users` is zero. The inserted row gets rowid 1 (first row of an empty
table with `INTEGER PRIMARY KEY`). -/
def init_database (s : Store) : Store :=
  let mealsTab := s.meals.getD []
  let usersTab := s.users.getD []
  let usersTab' :=
    if usersTab.length = 0 then
      usersTab ++ [{ id := 1, name := "User", target_calories := 2000 }]
    else usersTab
  { meals := some mealsTab, users := some usersTab', nextMealId := s.nextMealId }

/-- Embeds `DatabaseManager.create_meal`. The wall-clock
`datetime.now().isoformat()` is the explicit `timestamp` argument. On an
absent connection the `.cursor()` call raises `AttributeError`; an
`sqlite3.Error` (absent table) is caught and the method returns `False`
leaving the store as it was; otherwise the row is inserted with the next
autoincrement id and the method returns `True`. -/
def create_meal (date : Date) (meal_type food_name : String) (calories : ℚ)
    (serving_size notes : String) (timestamp : Nat) (conn : Conn) :
    Except PyErr (Bool × Store) :=
  match conn with
  | none => .error .attributeError
  | some s =>
    match s.meals with
    | none => .ok (false, s)
    | some rows =>
        .ok (true,
          { s with
            meals := some (rows ++ [{ id := s.nextMealId, date := date,
                                      meal_type := meal_type, food_name := food_name,
                                      calories := calories, serving_size := serving_size,
                                      notes := notes, timestamp := timestamp }]),
            nextMealId := s.nextMealId + 1 })

/-- Embeds `DatabaseManager.read_meals_by_date`: the 7-tuples
`(id, meal_type, food_name, calories, serving_size, notes, timestamp)` of
the rows whose `date` matches, `ORDER BY timestamp ASC`; `[]` on a caught
`sqlite3.Error`. -/
def read_meals_by_date (date : Date) (conn : Conn) :
    Except PyErr (List (Nat × String × String × ℚ × String × String × Nat)) :=
  match conn with
  | none => .error .attributeError
  | some s =>
    match s.meals with
    | none => .ok []
    | some rows =>
        .ok ((sortByLe (fun r₁ r₂ => r₁.timestamp ≤ r₂.timestamp)
            (rows.filter (fun r => r.date == date))).map
          (fun r => (r.id, r.meal_type, r.food_name, r.calories,
            r.serving_size, r.notes, r.timestamp)))

/-- Embeds `DatabaseManager.read_all_meals`: the 8-tuples
`(id, date, meal_type, food_name, calories, serving_size, notes,
timestamp)` of every row, `ORDER BY date DESC, timestamp DESC`; `[]` on a
caught `sqlite3.Error`. -/
def read_all_meals (conn : Conn) :
    Except PyErr (List (Nat × Date × String × String × ℚ × String × String × Nat)) :=
  match conn with
  | none => .error .attributeError
  | some s =>
    match s.meals with
    | none => .ok []
    | some rows =>
        .ok ((sortByLe
            (fun r₁ r₂ =>
              decide (r₂.date < r₁.date) ||
                (r₁.date == r₂.date && decide (r₂.timestamp ≤ r₁.timestamp)))
            rows).map
          (fun r => (r.id, r.date, r.meal_type, r.food_name, r.calories,
            r.serving_size, r.notes, r.timestamp)))

/-- Embeds `DatabaseManager.update_meal`: `UPDATE meals SET meal_type,
food_name, calories, serving_size, notes WHERE id = ?`; returns `True`
after the commit (whether or not any row matched), `False` on a caught
`sqlite3.Error`. -/
def update_meal (meal_id : Nat) (meal_type food_name : String)
    (calories : ℚ) (serving_size notes : String) (conn : Conn) :
    Except PyErr (Bool × Store) :=
  match conn with
  | none => .error .attributeError
  | some s =>
    match s.meals with
    | none => .ok (false, s)
    | some rows =>
        .ok (true,
          { s with
            meals := some (rows.map (fun r =>
              if r.id = meal_id then
                { r with meal_type := meal_type, food_name := food_name,
                         calories := calories, serving_size := serving_size,
                         notes := notes }
              else r)) })

/-- Embeds `DatabaseManager.delete_meal`: `DELETE FROM meals WHERE id = ?`;
returns `True` after the commit (even when nothing matched), `False` on a
caught `sqlite3.Error`. -/
def delete_meal (meal_id : Nat) (conn : Conn) : Except PyErr (Bool × Store) :=
  match conn with
  | none => .error .attributeError
  | some s =>
    match s.meals with
    | none => .ok (false, s)
    | some rows => .ok (true, { s with meals := some (rows.filter (fun r => r.id != meal_id)) })

/-- `SELECT SUM(calories) FROM meals WHERE date = ?` followed by
`float(result) if result else 0.0`: the SQL sum is `NULL` (→ 0.0) on no
rows, and a sum of 0 is also returned as 0.0. -/
def dailyTotal (date : Date) (s : Store) : ℚ :=
  match s.meals with
  | none => 0
  | some rows => ((rows.filter (fun r => r.date == date)).map
      (fun r => r.calories)).sum

/-- Embeds `DatabaseManager.get_daily_calories`; a caught `sqlite3.Error`
(absent table) also yields `0.0`, which `dailyTotal` already returns there. -/
def get_daily_calories (date : Date) (conn : Conn) : Except PyErr ℚ :=
  match conn with
  | none => .error .attributeError
  | some s => .ok (dailyTotal date s)

/-- `range(6, -1, -1)`: the offsets of the 7-day window, 6 days ago first. -/
def weeklyOffsets : List Int := [6, 5, 4, 3, 2, 1, 0]

/-- Embeds `DatabaseManager.get_weekly_data`: for `i` in `range(6,-1,-1)`,
append `(today - i, get_daily_calories (today - i))`. `today` is the
current calendar day (`datetime.now()`, made explicit). -/
def get_weekly_data (today : Date) (conn : Conn) :
    Except PyErr (List (Date × ℚ)) :=
  weeklyOffsets.foldlM
    (fun acc i => do
      let c ← get_daily_calories (today - i) conn
      pure (acc ++ [(today - i, c)]))
    []

/-- Embeds `DatabaseManager.get_target_calories`: `SELECT target_calories
FROM users WHERE id = 1`; `int(result[0]) if result else 2000`, and 2000
on a caught `sqlite3.Error` (absent table). -/
def get_target_calories (conn : Conn) : Except PyErr Int :=
  match conn with
  | none => .error .attributeError
  | some s =>
    match s.users with
    | none => .ok 2000
    | some rows =>
        match rows.find? (fun u => u.id == 1) with
        | none => .ok 2000
        | some u => .ok u.target_calories

/-! ## Calculator theorems -/

/-- C1: for every three arguments all interpretable as numbers, with the
standard serving size interpreting to a nonzero number,
`calculate_calories_for_serving` returns exactly `(c / s) * u` on the
interpreted values. -/
theorem calc_serving_formula (c s u : PyVal) (qc qs qu : ℚ)
    (hc : pyFloat c = some qc) (hs : pyFloat s = some qs)
    (hu : pyFloat u = some qu) (hz : qs ≠ 0) :
    calculate_calories_for_serving c s u = Except.ok (qc / qs * qu) := by
  unfold calculate_calories_for_serving
  rw [hc, hs, hu]
  simp [hz]

/-- C1 witness: the spec's example `(100, 50, 75)` yields `150`. -/
theorem calc_serving_formula_witness :
    pyFloat (PyVal.num 100) = some 100 ∧ pyFloat (PyVal.num 50) = some 50 ∧
    pyFloat (PyVal.num 75) = some 75 ∧ (50 : ℚ) ≠ 0 ∧
    calculate_calories_for_serving (PyVal.num 100) (PyVal.num 50) (PyVal.num 75) =
      Except.ok 150 := by
  refine ⟨rfl, rfl, rfl, by norm_num, ?_⟩
  have h := calc_serving_formula (PyVal.num 100) (PyVal.num 50) (PyVal.num 75)
    100 50 75 rfl rfl rfl (by norm_num)
  rw [h]
  norm_num

/-- C9: whenever at least one of the three arguments is not interpretable
as a number, `calculate_calories_for_serving` fails with `ValueError`
(the spec's `InvalidInput`). -/
theorem calc_nonnumeric_value_error (c s u : PyVal)
    (h : pyFloat c = none ∨ pyFloat s = none ∨ pyFloat u = none) :
    calculate_calories_for_serving c s u = Except.error CalcErr.valueError := by
  unfold calculate_calories_for_serving
  cases hc : pyFloat c <;> cases hs : pyFloat s <;> cases hu : pyFloat u <;>
    simp_all

/-- C9 witness: the string `"abc"` as calories-per-serving. -/
theorem calc_nonnumeric_value_error_witness :
    pyFloat (PyVal.str "abc") = none ∧
    calculate_calories_for_serving (PyVal.str "abc") (PyVal.num 50) (PyVal.num 75) =
      Except.error CalcErr.valueError :=
  ⟨rfl, calc_nonnumeric_value_error (PyVal.str "abc") (PyVal.num 50) (PyVal.num 75)
    (Or.inl rfl)⟩

/-- C3 counterexample: the claim's universal quantification over the other
two inputs fails. With calories-per-serving `"abc"` (not numeric) and
standard serving size `0`, the call fails with `ValueError`
(`InvalidInput`), not `ZeroDivisionError`: the code converts all three
arguments before the zero check. -/
theorem zero_std_universal_cex :
    calculate_calories_for_serving (PyVal.str "abc") (PyVal.num 0) (PyVal.num 75) =
      Except.error CalcErr.valueError ∧
    Except.error CalcErr.valueError ≠
      (Except.error CalcErr.zeroDivisionError : Except CalcErr ℚ) := by
  refine ⟨rfl, ?_⟩
  intro h
  simp at h

/-- C3 amended: for every three arguments all interpretable as numbers,
if the standard serving size interprets to `0` the call fails with
`ZeroDivisionError`, regardless of the (numeric) other two inputs. -/
theorem zero_std_zero_division (c s u : PyVal) (qc qu : ℚ)
    (hc : pyFloat c = some qc) (hs : pyFloat s = some 0)
    (hu : pyFloat u = some qu) :
    calculate_calories_for_serving c s u = Except.error CalcErr.zeroDivisionError := by
  unfold calculate_calories_for_serving
  rw [hc, hs, hu]
  simp

/-- C3 witness: `(100, 0, 75)` raises `ZeroDivisionError`. -/
theorem zero_std_zero_division_witness :
    pyFloat (PyVal.num 100) = some 100 ∧ pyFloat (PyVal.num 0) = some 0 ∧
    pyFloat (PyVal.num 75) = some 75 ∧
    calculate_calories_for_serving (PyVal.num 100) (PyVal.num 0) (PyVal.num 75) =
      Except.error CalcErr.zeroDivisionError :=
  ⟨rfl, rfl, rfl,
    zero_std_zero_division (PyVal.num 100) (PyVal.num 0) (PyVal.num 75)
      100 75 rfl rfl rfl⟩

/-- C8: `filter_logs_by_meal_type` returns the order-preserving sublist
of the logs whose `meal_type` equals the query up to letter case; queries
equal up to case select exactly the same entries; and no match (in
particular an empty input list) yields the empty list, not an error. -/
theorem filter_meal_type_spec (logs : List UserLog) (mt : String) :
    (filter_logs_by_meal_type logs mt).Sublist logs ∧
    (∀ log, log ∈ filter_logs_by_meal_type logs mt ↔
      log ∈ logs ∧ strLower log.meal_type = strLower mt) ∧
    (∀ mt₂, strLower mt = strLower mt₂ →
      filter_logs_by_meal_type logs mt = filter_logs_by_meal_type logs mt₂) ∧
    filter_logs_by_meal_type [] mt = [] := by
  refine ⟨List.filter_sublist _, ?_, ?_, rfl⟩
  · intro log
    simp [filter_logs_by_meal_type]
  · intro mt₂ h
    simp [filter_logs_by_meal_type, h]

/-- A concrete logged meal used by witnesses. -/
def sampleLog : UserLog :=
  { id := some 1, date := "2024-01-01", meal_type := "Breakfast",
    food_name := "Eggs", calories := 100, serving_size := "2",
    notes := none, timestamp := 0 }

/-- C8 witness: `"Breakfast"` and `"BREAKFAST"` select the same entries
from a concrete log list. -/
theorem filter_meal_type_spec_witness :
    strLower "Breakfast" = strLower "BREAKFAST" ∧
    filter_logs_by_meal_type [sampleLog] "Breakfast" =
      filter_logs_by_meal_type [sampleLog] "BREAKFAST" :=
  ⟨by decide, (filter_meal_type_spec [sampleLog] "Breakfast").2.2.1 "BREAKFAST"
    (by decide)⟩

/-! ## Persistence theorems -/

/-- Membership is preserved by one insertion step of the `ORDER BY` sort. -/
theorem mem_insertLe {le : α → α → Bool} {a x : α} {l : List α} :
    x ∈ insertLe le a l ↔ x = a ∨ x ∈ l := by
  induction l with
  | nil => simp [insertLe]
  | cons b bs ih =>
      simp only [insertLe]
      split
      · simp
      · simp [ih]
        tauto

/-- The `ORDER BY` sort returns a list with the same members. -/
theorem mem_sortByLe {le : α → α → Bool} {x : α} {l : List α} :
    x ∈ sortByLe le l ↔ x ∈ l := by
  induction l with
  | nil => simp [sortByLe]
  | cons b bs ih =>
      rw [show sortByLe le (b :: bs) = insertLe le b (sortByLe le bs) from rfl,
        mem_insertLe]
      simp [ih]

/-- C2 counterexample: `read_meals_by_date` invoked after the store
failed to open (the `connection` attribute stayed `None`) raises the
uncaught `AttributeError` from `None.cursor()` — an unhandled fault, not
a `StorageError` failure result: the methods catch only `sqlite3.Error`. -/
theorem failed_conn_cex :
    read_meals_by_date 0 none = Except.error PyErr.attributeError ∧
    Except.error PyErr.attributeError ≠
      (Except.error PyErr.storageError :
        Except PyErr (List (Nat × String × String × ℚ × String × String × Nat))) := by
  refine ⟨rfl, ?_⟩
  intro h
  simp at h

/-- C2 amended: every persistence operation invoked on a failed
connection does fail rather than silently no-opping or returning a
default value, but the failure is the uncaught `AttributeError` raised by
the absent connection object, which is distinct from a `StorageError`. -/
theorem failed_conn_ops_raise (d : Date) (mid : Nat)
    (mt fn sz nt : String) (cal : ℚ) (ts : Nat) :
    read_meals_by_date d none = Except.error PyErr.attributeError ∧
    read_all_meals none = Except.error PyErr.attributeError ∧
    get_daily_calories d none = Except.error PyErr.attributeError ∧
    get_target_calories none = Except.error PyErr.attributeError ∧
    create_meal d mt fn cal sz nt ts none = Except.error PyErr.attributeError ∧
    update_meal mid mt fn cal sz nt none = Except.error PyErr.attributeError ∧
    delete_meal mid none = Except.error PyErr.attributeError ∧
    PyErr.attributeError ≠ PyErr.storageError :=
  ⟨rfl, rfl, rfl, rfl, rfl, rfl, rfl, by decide⟩

/-- C5: on an open connection, `update_meal` succeeds and produces the
row list in which exactly the row matching the id has its meal_type,
food_name, calories, serving_size and notes replaced — its id, date and
timestamp kept — while every non-matching row and the settings (`users`)
table are left unchanged. -/
theorem update_frame (mid : Nat) (mt fn : String) (cal : ℚ) (sz nt : String)
    (st : Store) (rows : List MealRow) (h : st.meals = some rows) :
    ∃ rows' : List MealRow,
      update_meal mid mt fn cal sz nt (some st) =
        Except.ok (true, { st with meals := some rows' }) ∧
      rows'.length = rows.length ∧
      (∀ (j : Nat) (r : MealRow), rows[j]? = some r →
        rows'[j]? = some (if r.id = mid then
          { r with meal_type := mt, food_name := fn, calories := cal,
                   serving_size := sz, notes := nt }
        else r)) ∧
      ∀ usrs, st.users = usrs →
        ({ st with meals := some rows' } : Store).users = usrs := by
  obtain ⟨ms, us, nid⟩ := st
  obtain rfl : ms = some rows := h
  refine ⟨rows.map (fun r : MealRow =>
      if r.id = mid then
        { r with meal_type := mt, food_name := fn, calories := cal,
                 serving_size := sz, notes := nt }
      else r), ?_, by simp, ?_, ?_⟩
  · rfl
  · intro j r hj
    simp [List.getElem?_map, hj]
  · intro usrs hus
    exact hus

/-- C5 witness: updating the one stored row of a concrete store. -/
theorem update_frame_witness :
    (Store.mk (some [⟨1, 10, "Lunch", "Rice", 200, "1", "", 5⟩])
        (some [⟨1, "User", 2000⟩]) 2).meals =
      some [⟨1, 10, "Lunch", "Rice", 200, "1", "", 5⟩] ∧
    ∃ rows' : List MealRow,
      update_meal 1 "Dinner" "Beans" 150 "2" "late" (some
        (Store.mk (some [⟨1, 10, "Lunch", "Rice", 200, "1", "", 5⟩])
          (some [⟨1, "User", 2000⟩]) 2)) =
        Except.ok (true, { Store.mk (some [⟨1, 10, "Lunch", "Rice", 200, "1", "", 5⟩])
            (some [⟨1, "User", 2000⟩]) 2 with meals := some rows' }) ∧
      rows'.length = [(⟨1, 10, "Lunch", "Rice", 200, "1", "", 5⟩ : MealRow)].length ∧
      (∀ (j : Nat) (r : MealRow), [(⟨1, 10, "Lunch", "Rice", 200, "1", "", 5⟩ : MealRow)][j]? = some r →
        rows'[j]? = some (if r.id = 1 then
          { r with meal_type := "Dinner", food_name := "Beans", calories := 150,
                   serving_size := "2", notes := "late" }
        else r)) ∧
      ∀ usrs, (Store.mk (some [⟨1, 10, "Lunch", "Rice", 200, "1", "", 5⟩])
          (some [⟨1, "User", 2000⟩]) 2).users = usrs →
        ({ Store.mk (some [⟨1, 10, "Lunch", "Rice", 200, "1", "", 5⟩])
            (some [⟨1, "User", 2000⟩]) 2 with meals := some rows' } : Store).users = usrs :=
  ⟨rfl, update_frame 1 "Dinner" "Beans" 150 "2" "late" _ _ rfl⟩

/-- C10: `update_meal` with an id matching no stored row reports success
(returns `True` after the commit) and leaves the whole store — every meal
row and the settings table — unchanged. -/
theorem update_missing_id_noop (mid : Nat) (mt fn : String) (cal : ℚ)
    (sz nt : String) (st : Store) (rows : List MealRow)
    (h : st.meals = some rows) (hmid : ∀ r ∈ rows, r.id ≠ mid) :
    update_meal mid mt fn cal sz nt (some st) = Except.ok (true, st) := by
  have hmap : rows.map (fun r =>
      if r.id = mid then
        { r with meal_type := mt, food_name := fn, calories := cal,
                 serving_size := sz, notes := nt }
      else r) = rows := by
    conv_rhs => rw [← List.map_id rows]
    apply List.map_congr_left
    intro r hr
    simp [hmid r hr]
  obtain ⟨ms, us, nid⟩ := st
  obtain rfl : ms = some rows := h
  have heq : update_meal mid mt fn cal sz nt (some ⟨some rows, us, nid⟩) =
      Except.ok (true, ⟨some (rows.map (fun r =>
        if r.id = mid then
          { r with meal_type := mt, food_name := fn, calories := cal,
                   serving_size := sz, notes := nt }
        else r)), us, nid⟩) := rfl
  rw [heq, hmap]

/-- C10 witness: updating id 7 in a store whose only row has id 1. -/
theorem update_missing_id_noop_witness :
    (Store.mk (some [⟨1, 10, "Lunch", "Rice", 200, "1", "", 5⟩])
        (some [⟨1, "User", 2000⟩]) 2).meals =
      some [⟨1, 10, "Lunch", "Rice", 200, "1", "", 5⟩] ∧
    (∀ r ∈ [(⟨1, 10, "Lunch", "Rice", 200, "1", "", 5⟩ : MealRow)], r.id ≠ 7) ∧
    update_meal 7 "Dinner" "Beans" 150 "2" "late" (some
        (Store.mk (some [⟨1, 10, "Lunch", "Rice", 200, "1", "", 5⟩])
          (some [⟨1, "User", 2000⟩]) 2)) =
      Except.ok (true,
        Store.mk (some [⟨1, 10, "Lunch", "Rice", 200, "1", "", 5⟩])
          (some [⟨1, "User", 2000⟩]) 2) :=
  ⟨rfl, by decide,
    update_missing_id_noop 7 "Dinner" "Beans" 150 "2" "late" _ _ rfl (by decide)⟩

/-- C7: on an open connection, `delete_meal` succeeds; `read_all_meals`
on the resulting store contains no tuple carrying the deleted id; and
deleting the same id a second time succeeds as well. -/
theorem delete_removes_and_idempotent (mid : Nat) (st : Store)
    (rows : List MealRow) (h : st.meals = some rows) :
    ∃ st',
      delete_meal mid (some st) = Except.ok (true, st') ∧
      (∃ out, read_all_meals (some st') = Except.ok out ∧
        ∀ t ∈ out, t.1 ≠ mid) ∧
      ∃ st'', delete_meal mid (some st') = Except.ok (true, st'') := by
  obtain ⟨ms, us, nid⟩ := st
  obtain rfl : ms = some rows := h
  refine ⟨⟨some (rows.filter (fun r => r.id != mid)), us, nid⟩,
    rfl, ⟨?_, ⟨_, rfl⟩⟩⟩
  refine ⟨_, rfl, ?_⟩
  intro t ht
  simp only [List.mem_map] at ht
  obtain ⟨r, hr, rfl⟩ := ht
  rw [mem_sortByLe] at hr
  have := (List.mem_filter.mp hr).2
  simpa using this

/-- C7 witness: deleting id 1 from a concrete two-row store. -/
theorem delete_removes_witness :
    (Store.mk (some [⟨1, 10, "Lunch", "Rice", 200, "1", "", 5⟩,
        ⟨2, 11, "Dinner", "Beans", 150, "2", "", 6⟩])
        (some [⟨1, "User", 2000⟩]) 3).meals =
      some [⟨1, 10, "Lunch", "Rice", 200, "1", "", 5⟩,
        ⟨2, 11, "Dinner", "Beans", 150, "2", "", 6⟩] ∧
    ∃ st',
      delete_meal 1 (some (Store.mk (some [⟨1, 10, "Lunch", "Rice", 200, "1", "", 5⟩,
          ⟨2, 11, "Dinner", "Beans", 150, "2", "", 6⟩])
          (some [⟨1, "User", 2000⟩]) 3)) = Except.ok (true, st') ∧
      (∃ out, read_all_meals (some st') = Except.ok out ∧
        ∀ t ∈ out, t.1 ≠ 1) ∧
      ∃ st'', delete_meal 1 (some st') = Except.ok (true, st'') :=
  ⟨rfl, delete_removes_and_idempotent 1 _ _ rfl⟩

/-- C4: on an open connection, `get_weekly_data` returns exactly the 7
`(date, total)` pairs for today and the 6 preceding calendar days —
oldest first, consecutive days with no gaps, ending today — and a day for
which no meal row is stored reports total `0.0`. -/
theorem weekly_series_spec (today : Date) (st : Store) :
    get_weekly_data today (some st) =
      Except.ok ((List.range 7).map fun j : Nat =>
        (today - 6 + (j : Int), dailyTotal (today - 6 + (j : Int)) st)) ∧
    ((List.range 7).map fun j : Nat =>
      (today - 6 + (j : Int), dailyTotal (today - 6 + (j : Int)) st)).length = 7 ∧
    ∀ d : Date, (∀ rows, st.meals = some rows → ∀ r ∈ rows, r.date ≠ d) →
      dailyTotal d st = 0 := by
  refine ⟨?_, by simp, ?_⟩
  · have h : get_weekly_data today (some st) = Except.ok
        [(today - 6, dailyTotal (today - 6) st), (today - 5, dailyTotal (today - 5) st),
         (today - 4, dailyTotal (today - 4) st), (today - 3, dailyTotal (today - 3) st),
         (today - 2, dailyTotal (today - 2) st), (today - 1, dailyTotal (today - 1) st),
         (today - 0, dailyTotal (today - 0) st)] := rfl
    rw [h]
    have e1 : today - 6 + (1 : Int) = today - 5 := by ring
    have e2 : today - 6 + (2 : Int) = today - 4 := by ring
    have e3 : today - 6 + (3 : Int) = today - 3 := by ring
    have e4 : today - 6 + (4 : Int) = today - 2 := by ring
    have e5 : today - 6 + (5 : Int) = today - 1 := by ring
    have e6 : today - 6 + (6 : Int) = today - 0 := by ring
    simp only [show List.range 7 = [0, 1, 2, 3, 4, 5, 6] from rfl, List.map_cons,
      List.map_nil, Nat.cast_zero, Nat.cast_one, Nat.cast_ofNat, add_zero,
      e1, e2, e3, e4, e5, e6]
  · intro d hd
    obtain ⟨ms, us, nid⟩ := st
    cases ms with
    | none => rfl
    | some rows =>
        have hnil : rows.filter (fun r => r.date == d) = [] := by
          rw [List.filter_eq_nil_iff]
          intro r hr
          simpa using hd rows rfl r hr
        show ((rows.filter (fun r => r.date == d)).map (fun r => r.calories)).sum = 0
        rw [hnil]
        rfl

/-- C4 witness: in a store whose only meal row is on day 1, day 5 (a day
with no logged meals) reports a total of 0. -/
theorem weekly_series_spec_witness :
    (∀ rows, (Store.mk (some [(⟨1, 1, "Lunch", "Rice", 200, "1", "", 5⟩ : MealRow)])
        (some [⟨1, "User", 2000⟩]) 2).meals = some rows →
      ∀ r ∈ rows, r.date ≠ 5) ∧
    dailyTotal 5 (Store.mk (some [(⟨1, 1, "Lunch", "Rice", 200, "1", "", 5⟩ : MealRow)])
        (some [⟨1, "User", 2000⟩]) 2) = 0 := by
  have hd : ∀ rows,
      (Store.mk (some [(⟨1, 1, "Lunch", "Rice", 200, "1", "", 5⟩ : MealRow)])
        (some [⟨1, "User", 2000⟩]) 2).meals = some rows →
      ∀ r ∈ rows, r.date ≠ 5 := by
    intro rows hrows r hr
    injection hrows with h2
    subst h2
    simp at hr
    subst hr
    decide
  exact ⟨hd, (weekly_series_spec 0 _).2.2 5 hd⟩

/-- C6: `init_database` is idempotent (a second call changes nothing); on
a fresh store it creates the `meals` and `users` tables and inserts
exactly the one default settings row (`'User'`, target 2000); after any
positive number of calls exactly that one settings row exists; and
`get_target_calories` on the freshly initialized store returns 2000. -/
theorem init_idempotent_defaults :
    (∀ s : Store, init_database (init_database s) = init_database s) ∧
    (init_database Store.fresh).meals = some [] ∧
    (init_database Store.fresh).users = some [⟨1, "User", 2000⟩] ∧
    (∀ n : Nat, (init_database^[n + 1] Store.fresh).users =
      some [⟨1, "User", 2000⟩]) ∧
    get_target_calories (some (init_database Store.fresh)) = Except.ok 2000 := by
  have hid : ∀ s : Store, init_database (init_database s) = init_database s := by
    intro s
    obtain ⟨ms, us, nid⟩ := s
    cases us with
    | none => rfl
    | some ul =>
        cases ul with
        | nil => rfl
        | cons u ul2 => rfl
  have hiter : ∀ n : Nat, init_database^[n + 1] Store.fresh =
      init_database Store.fresh := by
    intro n
    induction n with
    | zero => simp
    | succ k ih => rw [Function.iterate_succ_apply', ih, hid]
  refine ⟨hid, rfl, rfl, ?_, rfl⟩
  intro n
  rw [hiter n]
  rfl

end CalQ
